import Mathlib

/-!
Verification of the zero-knowledge sync client core (`zerok_sync`).

The repository slice under inspection ships only the Python binding surface
(`zerok_sync/__init__.py`, re-exporting `SyncClient`, `SyncConfig`,
`PushResult`, `SyncBlob`, `SyncInvite`, `DeriveResult`, `derive_secret`,
`invite_from_qr` from the native module `zerok_sync._zerok_sync`) together
with its integration tests.  The native core itself is not part of the
slice, so every operation below is modelled from the specification of the
cryptographic identity and session engine: secret derivation, session
configuration and validation, the session state machine, and the invite
codec.  Bytes are modelled as `List Nat`.
-/

/-- Modelled from the spec: the KDF primitive is unspecified ("does not
mandate a specific KDF"); only determinism, output length and input
sensitivity are binding.  A single mixing step of the modelled KDF. -/
def mixStep (acc b : Nat) : Nat :=
  (acc * 131 + b + 1) % 2305843009213693951

/-- Modelled from the spec: absorb a byte sequence into the KDF state. -/
def mixBytes (seed : Nat) (bs : List Nat) : Nat :=
  bs.foldl mixStep seed

/-- Modelled from the spec: a 64-bit linear congruential step used to
squeeze an output stream out of a KDF state. -/
def lcg (x : Nat) : Nat :=
  (x * 6364136223846793005 + 1442695040888963407) % 18446744073709551616

/-- Modelled from the spec: squeeze `n` output bytes from state `st`. -/
def squeeze : Nat → Nat → List Nat
  | _, 0 => []
  | st, n + 1 => (lcg st % 256) :: squeeze (lcg st) n

/-- The code points of a passphrase string, as KDF input bytes. -/
def strBytes (s : String) : List Nat :=
  s.toList.map Char.toNat

/-- Modelled from the spec: combined KDF state of a passphrase and a salt,
with a domain separator (256, outside the byte range) between the two
inputs so that each input is absorbed unambiguously. -/
def kdfSeed (passphrase salt : List Nat) : Nat :=
  mixBytes (mixStep (mixBytes 99194853094755497 passphrase) 256) salt

/-- `DeriveResult`: 32 opaque secret bytes plus a derived group id
(spec: non-empty, a one-way function of the secret). -/
structure DeriveResult where
  secret_bytes : List Nat
  group_id : List Nat
deriving DecidableEq

/-- Modelled from the spec: `derive_secret(passphrase, salt)` of the native
module `zerok_sync._zerok_sync` (not in the slice).  Pure and
deterministic; always yields exactly 32 secret bytes and a non-empty
group id derived one-way from the secret. -/
def derive_secret (passphrase : String) (salt : List Nat) : DeriveResult :=
  let secret := squeeze (kdfSeed (strBytes passphrase) salt) 32
  { secret_bytes := secret
    group_id := squeeze (mixBytes 2654435769 secret) 16 }

theorem squeeze_length (n : Nat) : ∀ st : Nat, (squeeze st n).length = n := by
  induction n with
  | zero => intro st; rfl
  | succ n ih => intro st; simp [squeeze, ih]

/-- C6: `derive_secret` is deterministic — two invocations on identical
`(passphrase, salt)` inputs yield identical `secret_bytes` and identical
`group_id`. -/
theorem derive_secret_deterministic (p p' : String) (s s' : List Nat)
    (hp : p = p') (hs : s = s') :
    (derive_secret p s).secret_bytes = (derive_secret p' s').secret_bytes ∧
    (derive_secret p s).group_id = (derive_secret p' s').group_id := by
  subst hp; subst hs; exact ⟨rfl, rfl⟩

/-- Witness for C6 at the spec's example input. -/
theorem derive_secret_deterministic_at_example :
    (derive_secret "test-pass" (strBytes "salt-00000000000!")).secret_bytes =
      (derive_secret "test-pass" (strBytes "salt-00000000000!")).secret_bytes ∧
    (derive_secret "test-pass" (strBytes "salt-00000000000!")).group_id =
      (derive_secret "test-pass" (strBytes "salt-00000000000!")).group_id :=
  derive_secret_deterministic _ _ _ _ rfl rfl

/-- C7: for every input, `derive_secret` yields `secret_bytes` of length
exactly 32 and a non-empty `group_id`. -/
theorem derive_secret_shape (p : String) (s : List Nat) :
    (derive_secret p s).secret_bytes.length = 32 ∧
    (derive_secret p s).group_id ≠ [] := by
  constructor
  · exact squeeze_length 32 _
  · intro h
    have := squeeze_length 16 (mixBytes 2654435769 (derive_secret p s).secret_bytes)
    rw [show (derive_secret p s).group_id =
      squeeze (mixBytes 2654435769 (derive_secret p s).secret_bytes) 16 from rfl] at h
    rw [h] at this
    simp at this

/-- C9: `derive_secret` distinguishes the spec's concrete example inputs —
different passphrases with the same salt, and different salts with the
same passphrase, give different secrets. -/
theorem derive_secret_sensitive :
    (derive_secret "pass-a" (strBytes "salt-00000000000!")).secret_bytes ≠
      (derive_secret "pass-b" (strBytes "salt-00000000000!")).secret_bytes ∧
    (derive_secret "test-pass" (strBytes "salt-AAAAAAAAAA!!")).secret_bytes ≠
      (derive_secret "test-pass" (strBytes "salt-BBBBBBBBBB!!")).secret_bytes := by
  constructor <;> decide

/-- `SyncConfig`: keyword-style construction with optional fields
defaulting to `none`; construction itself performs no validation
(validation happens in `SyncClient.create`). -/
structure SyncConfig where
  passphrase : Option String := none
  salt : Option (List Nat) := none
  secret_bytes : Option (List Nat) := none
  relay_addresses : List String := []
  device_name : Option String := none
  ttl : Option Nat := none
deriving DecidableEq

/-- The error kinds of the engine: config validation errors, not-connected
errors, and invite decode errors. -/
inductive SyncError where
  | configError (msg : String)
  | notConnectedError (msg : String)
  | decodeError (msg : String)
deriving DecidableEq

/-- Does the character sequence start with the pattern? -/
def beginsWith : List Char → List Char → Bool
  | _, [] => true
  | [], _ :: _ => false
  | c :: cs, p :: ps => c == p && beginsWith cs ps

/-- Does the character sequence contain the pattern as a contiguous run? -/
def containsSeq (pat : List Char) : List Char → Bool
  | [] => beginsWith [] pat
  | c :: cs => beginsWith (c :: cs) pat || containsSeq pat cs

/-- An error message mentions a word when the word occurs in it. -/
def mentions (msg pat : String) : Prop :=
  containsSeq pat.toList msg.toList = true

instance (msg pat : String) : Decidable (mentions msg pat) := by
  unfold mentions; infer_instance

/-- Modelled from the spec: secret-source resolution inside
`SyncClient.create` of the native module (not in the slice).  Exactly one
secret source: raw `secret_bytes` (length 32) or `passphrase` plus
`salt` (resolved through the deriver). -/
def resolveSecret (c : SyncConfig) : Except SyncError (List Nat) :=
  match c.secret_bytes, c.passphrase with
  | some _, some _ =>
      .error (.configError "config supplies both passphrase and secret_bytes")
  | some sb, none =>
      if sb.length = 32 then .ok sb
      else .error (.configError "secret_bytes must be exactly 32 bytes")
  | none, some pp =>
      match c.salt with
      | some s => .ok (derive_secret pp s).secret_bytes
      | none => .error (.configError "passphrase requires a salt")
  | none, none => .error (.configError "config supplies no secret source")

/-- Session lifecycle states: `Created → Connected → ShutDown`. -/
inductive SessionState where
  | created
  | connected (relay : String)
  | shutDown
deriving DecidableEq

/-- `SyncClient`: the session owns the resolved 32-byte secret, the relay
list, its lifecycle state and a monotonic cursor. -/
structure SyncClient where
  secret : List Nat
  relay_addresses : List String
  state : SessionState
  cursor : Nat
deriving DecidableEq

/-- Modelled from the spec: `SyncClient.create(config)` of the native
module (not in the slice).  Validates the config synchronously — secret
source rules first, then the non-empty relay list — and constructs the
session in `Created` state with cursor 0. -/
def SyncClient.create (c : SyncConfig) : Except SyncError SyncClient :=
  match resolveSecret c with
  | .error e => .error e
  | .ok secret =>
      if c.relay_addresses = [] then
        .error (.configError "relay_addresses must not be empty")
      else
        .ok { secret := secret, relay_addresses := c.relay_addresses,
              state := .created, cursor := 0 }

/-- C2: `SyncClient.create` succeeds on a 32-byte secret with a non-empty
relay list, and rejects each validation-rule violation with a distinct
config error: passphrase without salt mentions "salt", both secret
sources mention "both", an empty relay list mentions "empty", and a
wrong-length secret fails. -/
theorem create_validation :
    (∀ (c : SyncConfig) (sb : List Nat),
        c.secret_bytes = some sb → sb.length = 32 → c.passphrase = none →
        c.relay_addresses ≠ [] → ∃ s, SyncClient.create c = .ok s) ∧
    (∀ (c : SyncConfig) (pp : String),
        c.passphrase = some pp → c.salt = none → c.secret_bytes = none →
        SyncClient.create c = .error (.configError "passphrase requires a salt") ∧
        mentions "passphrase requires a salt" "salt") ∧
    (∀ (c : SyncConfig) (pp : String) (sb : List Nat),
        c.passphrase = some pp → c.secret_bytes = some sb →
        SyncClient.create c =
          .error (.configError "config supplies both passphrase and secret_bytes") ∧
        mentions "config supplies both passphrase and secret_bytes" "both") ∧
    (∀ (c : SyncConfig) (sb : List Nat),
        c.secret_bytes = some sb → sb.length = 32 → c.passphrase = none →
        c.relay_addresses = [] →
        SyncClient.create c = .error (.configError "relay_addresses must not be empty") ∧
        mentions "relay_addresses must not be empty" "empty") ∧
    (∀ (c : SyncConfig) (sb : List Nat),
        c.secret_bytes = some sb → sb.length ≠ 32 → c.passphrase = none →
        SyncClient.create c = .error (.configError "secret_bytes must be exactly 32 bytes")) := by
  refine ⟨?_, ?_, ?_, ?_, ?_⟩
  · intro c sb hsb hlen hpp hra
    simp [SyncClient.create, resolveSecret, hsb, hpp, hlen, hra]
  · intro c pp hpp hsalt hsb
    exact ⟨by simp [SyncClient.create, resolveSecret, hpp, hsalt, hsb], by decide⟩
  · intro c pp sb hpp hsb
    exact ⟨by simp [SyncClient.create, resolveSecret, hpp, hsb], by decide⟩
  · intro c sb hsb hlen hpp hra
    exact ⟨by simp [SyncClient.create, resolveSecret, hsb, hpp, hlen, hra], by decide⟩
  · intro c sb hsb hlen hpp
    simp [SyncClient.create, resolveSecret, hsb, hpp, hlen]

/-- Witness for C2: the passphrase-without-salt config fails mentioning
"salt" at a concrete config. -/
theorem create_validation_at_example :
    SyncClient.create { passphrase := some "test-pass", relay_addresses := ["relay"] } =
      .error (.configError "passphrase requires a salt") ∧
    mentions "passphrase requires a salt" "salt" :=
  create_validation.2.1
    { passphrase := some "test-pass", relay_addresses := ["relay"] }
    "test-pass" rfl rfl rfl

/-- C10: constructing a `SyncConfig` performs no validation — every field
combination constructs, the fields read back verbatim, and omitted
optional fields read back as `none`. -/
theorem syncConfig_no_validation :
    (∀ (pp : Option String) (salt : Option (List Nat)) (sb : Option (List Nat))
        (ra : List String) (dn : Option String) (ttl : Option Nat),
        (SyncConfig.mk pp salt sb ra dn ttl).passphrase = pp ∧
        (SyncConfig.mk pp salt sb ra dn ttl).salt = salt ∧
        (SyncConfig.mk pp salt sb ra dn ttl).secret_bytes = sb ∧
        (SyncConfig.mk pp salt sb ra dn ttl).relay_addresses = ra ∧
        (SyncConfig.mk pp salt sb ra dn ttl).device_name = dn ∧
        (SyncConfig.mk pp salt sb ra dn ttl).ttl = ttl) ∧
    (∀ (sb : List Nat) (ra : List String),
        ({ secret_bytes := some sb, relay_addresses := ra } : SyncConfig).passphrase = none ∧
        ({ secret_bytes := some sb, relay_addresses := ra } : SyncConfig).salt = none ∧
        ({ secret_bytes := some sb, relay_addresses := ra } : SyncConfig).device_name = none ∧
        ({ secret_bytes := some sb, relay_addresses := ra } : SyncConfig).ttl = none) :=
  ⟨fun _ _ _ _ _ _ => ⟨rfl, rfl, rfl, rfl, rfl, rfl⟩, fun _ _ => ⟨rfl, rfl, rfl, rfl⟩⟩

/-- `is_connected()`: true exactly in the `Connected` state. -/
def SyncClient.is_connected (s : SyncClient) : Bool :=
  match s.state with
  | .connected _ => true
  | _ => false

/-- `current_cursor()`: the session's monotonic cursor. -/
def SyncClient.current_cursor (s : SyncClient) : Nat :=
  s.cursor

/-- `active_relay()`: the relay identifier, set only while connected. -/
def SyncClient.active_relay (s : SyncClient) : Option String :=
  match s.state with
  | .connected r => some r
  | _ => none

/-- `PushResult`: the cursor after a successful push. -/
structure PushResult where
  cursor : Nat
deriving DecidableEq

/-- `SyncBlob`: an opaque encrypted payload plus its cursor position. -/
structure SyncBlob where
  payload : List Nat
  cursor : Nat
deriving DecidableEq

/-- The external relay transport boundary: sending a blob yields the new
cursor, receiving yields the blobs after a cursor. -/
structure Transport where
  send : List Nat → Nat → Except SyncError Nat
  receive : Nat → Except SyncError (List SyncBlob)

/-- The highest cursor among the retrieved blobs, at least `base`. -/
def maxCursor (blobs : List SyncBlob) (base : Nat) : Nat :=
  blobs.foldl (fun acc b => max acc b.cursor) base

/-- Modelled from the spec: `push(payload)` of the native module (not in
the slice).  Requires `Connected`; otherwise fails with a
not-connected error. -/
def SyncClient.push (s : SyncClient) (t : Transport) (payload : List Nat) :
    Except SyncError (PushResult × SyncClient) :=
  match s.state with
  | .connected _ =>
      match t.send payload s.cursor with
      | .ok newCursor => .ok ({ cursor := newCursor }, { s with cursor := newCursor })
      | .error e => .error e
  | _ => .error (.notConnectedError "not connected")

/-- Modelled from the spec: `pull_after(cursor)` of the native module (not
in the slice).  Requires `Connected`; returns only blobs strictly after
the given cursor and advances the session cursor to the highest cursor
retrieved. -/
def SyncClient.pull_after (s : SyncClient) (t : Transport) (cur : Nat) :
    Except SyncError (List SyncBlob × SyncClient) :=
  match s.state with
  | .connected _ =>
      match t.receive cur with
      | .ok blobs =>
          let fresh := blobs.filter (fun b => cur < b.cursor)
          .ok (fresh, { s with cursor := maxCursor fresh s.cursor })
      | .error e => .error e
  | _ => .error (.notConnectedError "not connected")

/-- Modelled from the spec: `pull()` of the native module (not in the
slice) — `pull_after` at the session's current cursor. -/
def SyncClient.pull (s : SyncClient) (t : Transport) :
    Except SyncError (List SyncBlob × SyncClient) :=
  s.pull_after t s.cursor

/-- The session with its state forced to `ShutDown`. -/
def shutdownState (s : SyncClient) : SyncClient :=
  { s with state := .shutDown }

/-- Modelled from the spec: `shutdown()` of the native module (not in the
slice).  Succeeds unconditionally from every state. -/
def SyncClient.shutdown (s : SyncClient) : Except SyncError SyncClient :=
  .ok (shutdownState s)

/-- Modelled from the spec: scoped (context-managed) use of the session —
entering yields the session, and leaving the scope by any path invokes
shutdown exactly once on the final session. -/
def usingClient {α : Type} (s : SyncClient)
    (body : SyncClient → Except SyncError α × SyncClient) :
    Except SyncError α × SyncClient :=
  match body s with
  | (r, s') => (r, shutdownState s')

/-- C3: a session freshly created from a valid config reports
`is_connected = false`, `current_cursor = 0` and `active_relay = none`. -/
theorem fresh_session_state (c : SyncConfig) (s : SyncClient)
    (h : SyncClient.create c = .ok s) :
    s.is_connected = false ∧ s.current_cursor = 0 ∧ s.active_relay = none := by
  unfold SyncClient.create at h
  split at h
  · exact absurd h (by simp)
  · split at h
    · exact absurd h (by simp)
    · cases h; exact ⟨rfl, rfl, rfl⟩

/-- Witness for C3 at a concrete config. -/
theorem fresh_session_state_at_example :
    (SyncClient.mk (List.replicate 32 0) ["fake-relay"] .created 0).is_connected = false ∧
    (SyncClient.mk (List.replicate 32 0) ["fake-relay"] .created 0).current_cursor = 0 ∧
    (SyncClient.mk (List.replicate 32 0) ["fake-relay"] .created 0).active_relay = none :=
  fresh_session_state
    { secret_bytes := some (List.replicate 32 0), relay_addresses := ["fake-relay"] }
    _ rfl

/-- C4: `push`, `pull` and `pull_after` fail with a not-connected error in
every non-`Connected` state, and `shutdown`, `is_connected`,
`current_cursor` and `active_relay` never produce a not-connected error
(`shutdown` always returns `.ok`; the observers are total functions). -/
theorem not_connected_failures (t : Transport) (s : SyncClient)
    (payload : List Nat) (cur : Nat) (h : s.is_connected = false) :
    s.push t payload = .error (.notConnectedError "not connected") ∧
    s.pull t = .error (.notConnectedError "not connected") ∧
    s.pull_after t cur = .error (.notConnectedError "not connected") ∧
    (∀ s' : SyncClient, s'.shutdown = .ok (shutdownState s')) := by
  refine ⟨?_, ?_, ?_, fun _ => rfl⟩ <;>
    · cases hst : s.state with
      | connected r => rw [SyncClient.is_connected, hst] at h; exact absurd h (by simp)
      | created => simp [SyncClient.push, SyncClient.pull, SyncClient.pull_after, hst]
      | shutDown => simp [SyncClient.push, SyncClient.pull, SyncClient.pull_after, hst]

/-- Witness for C4 at a concrete never-connected session. -/
theorem not_connected_failures_at_example :
    (SyncClient.mk [] ["fake-relay"] .created 0).push
        { send := fun _ c => .ok c, receive := fun _ => .ok [] } [104, 105] =
      .error (.notConnectedError "not connected") ∧
    (SyncClient.mk [] ["fake-relay"] .created 0).pull
        { send := fun _ c => .ok c, receive := fun _ => .ok [] } =
      .error (.notConnectedError "not connected") ∧
    (SyncClient.mk [] ["fake-relay"] .created 0).pull_after
        { send := fun _ c => .ok c, receive := fun _ => .ok [] } 0 =
      .error (.notConnectedError "not connected") ∧
    (∀ s' : SyncClient, s'.shutdown = .ok (shutdownState s')) :=
  not_connected_failures _ _ _ _ rfl

/-- C5: `shutdown` succeeds unconditionally from every state, repeated
calls are idempotent no-ops, and scoped use invokes shutdown exactly once
on every exit path, leaving the session `ShutDown` while passing the
body's result through unchanged. -/
theorem shutdown_contract {α : Type} (s : SyncClient)
    (body : SyncClient → Except SyncError α × SyncClient) :
    s.shutdown = .ok (shutdownState s) ∧
    (shutdownState s).shutdown = .ok (shutdownState s) ∧
    shutdownState (shutdownState s) = shutdownState s ∧
    (usingClient s body).1 = (body s).1 ∧
    (usingClient s body).2 = shutdownState (body s).2 ∧
    (usingClient s body).2.state = .shutDown :=
  ⟨rfl, rfl, rfl, rfl, rfl, rfl⟩

/-- `SyncInvite`: version tag, relay list, group secret, QR payload and
human-typable short code. -/
structure SyncInvite where
  version : Nat
  relay_addresses : List String
  group_secret : List Nat
  qr_payload : List Nat
  short_code : String
deriving DecidableEq

/-- The fixed invite protocol version. -/
def INVITE_VERSION : Nat := 3

/-- Modelled from the spec: serialize one relay address as a length word
followed by its code points. -/
def encodeStr (s : String) : List Nat :=
  s.length :: s.toList.map Char.toNat

/-- Modelled from the spec: serialize the relay list as a count word
followed by the serialized addresses. -/
def encodeRelays (rs : List String) : List Nat :=
  rs.length :: (rs.map encodeStr).flatten

/-- Modelled from the spec: the self-describing QR serialization of
`{version, group_secret, relay_addresses}` produced by the native
module (not in the slice). -/
def encodeInvite (secret : List Nat) (rs : List String) : List Nat :=
  INVITE_VERSION :: secret ++ encodeRelays rs

/-- The short-code alphabet: 31 unambiguous symbols, no hyphen. -/
def CODE_ALPHABET : List Char := "ABCDEFGHJKMNPQRSTUVWXYZ23456789".toList

/-- One short-code symbol from a stream value. -/
def codeChar (n : Nat) : Char :=
  CODE_ALPHABET.getD (n % 31) 'A'

/-- Sixteen code symbols grouped as XXXX-XXXX-XXXX-XXXX. -/
def formatCode (cs : List Char) : String :=
  String.mk (cs.take 4 ++ '-' :: ((cs.drop 4).take 4 ++ '-' ::
    ((cs.drop 8).take 4 ++ '-' :: (cs.drop 12).take 4)))

/-- Modelled from the spec: the human-typable short code of an invite —
sixteen symbols squeezed from the invite contents, in four groups of
four separated by hyphens. -/
def short_code_of (secret : List Nat) (rs : List String) : String :=
  formatCode ((squeeze (mixBytes 7 (encodeInvite secret rs)) 16).map codeChar)

/-- Modelled from the spec: `create_invite(relay_addresses)` of the native
module (not in the slice).  Carries the session's group secret, the
supplied relay list, and `version = 3`; fails when the relay list is
empty. -/
def SyncClient.create_invite (s : SyncClient) (rs : List String) :
    Except SyncError SyncInvite :=
  if rs = [] then .error (.configError "relay_addresses must not be empty")
  else
    .ok { version := INVITE_VERSION
          relay_addresses := rs
          group_secret := s.secret
          qr_payload := encodeInvite s.secret rs
          short_code := short_code_of s.secret rs }

/-- Modelled from the spec: decode one relay address: a length word
followed by that many code points. -/
def decodeStr : List Nat → Option (String × List Nat)
  | [] => none
  | len :: rest =>
      if rest.length < len then none
      else some (String.mk ((rest.take len).map Char.ofNat), rest.drop len)

/-- Modelled from the spec: decode exactly `n` relay addresses. -/
def decodeStrs : Nat → List Nat → Option (List String × List Nat)
  | 0, rest => some ([], rest)
  | n + 1, rest =>
      match decodeStr rest with
      | none => none
      | some (s, rest') =>
          match decodeStrs n rest' with
          | none => none
          | some (ss, rest'') => some (s :: ss, rest'')

/-- Modelled from the spec: decode the relay section — a count word and
exactly that many addresses, consuming the whole section. -/
def decodeRelays (bs : List Nat) : Option (List String) :=
  match bs with
  | [] => none
  | n :: rest =>
      match decodeStrs n rest with
      | some (rs, []) => some rs
      | _ => none

/-- Modelled from the spec: `invite_from_qr(payload)` of the native module
(not in the slice) — the inverse of the QR encoding, failing with a
decode error on empty, wrong-version, truncated or malformed payloads. -/
def invite_from_qr (payload : List Nat) : Except SyncError SyncInvite :=
  match payload with
  | [] => .error (.decodeError "empty payload")
  | v :: rest =>
      if v ≠ INVITE_VERSION then .error (.decodeError "unsupported version")
      else if rest.length < 32 then .error (.decodeError "truncated payload")
      else
        match decodeRelays (rest.drop 32) with
        | none => .error (.decodeError "malformed relay section")
        | some rs =>
            .ok { version := v
                  relay_addresses := rs
                  group_secret := rest.take 32
                  qr_payload := payload
                  short_code := short_code_of (rest.take 32) rs }

theorem decodeStr_encodeStr (s : String) (rest : List Nat) :
    decodeStr (encodeStr s ++ rest) = some (s, rest) := by
  have hlen : (s.toList.map Char.toNat).length = s.length := by
    rw [List.length_map]; rfl
  rw [encodeStr, List.cons_append, decodeStr]
  rw [if_neg (by rw [List.length_append, hlen]; omega)]
  rw [List.take_left' hlen, List.drop_left' hlen, List.map_map]
  have hmap : ∀ l : List Char, l.map (Char.ofNat ∘ Char.toNat) = l := by
    intro l
    induction l with
    | nil => rfl
    | cons c cs ih => rw [List.map_cons, ih, Function.comp_apply, Char.ofNat_toNat]
  rw [hmap]
  rfl

theorem decodeStrs_encode (rs : List String) (rest : List Nat) :
    decodeStrs rs.length ((rs.map encodeStr).flatten ++ rest) = some (rs, rest) := by
  induction rs generalizing rest with
  | nil => simp [decodeStrs]
  | cons s ss ih =>
      simp only [List.length_cons, List.map_cons, List.flatten_cons, List.append_assoc,
        decodeStrs, decodeStr_encodeStr, ih]

theorem decodeRelays_encodeRelays (rs : List String) :
    decodeRelays (encodeRelays rs) = some rs := by
  have h := decodeStrs_encode rs []
  rw [List.append_nil] at h
  rw [encodeRelays, decodeRelays, h]

theorem codeChar_ne_hyphen (n : Nat) : codeChar n ≠ '-' := by
  have h : n % 31 < 31 := Nat.mod_lt _ (by omega)
  have hall : ∀ k, k < 31 → CODE_ALPHABET.getD k 'A' ≠ '-' := by decide
  exact hall (n % 31) h

theorem mem_code_stream_ne_hyphen (st n : Nat) (c : Char)
    (h : c ∈ (squeeze st n).map codeChar) : c ≠ '-' := by
  rcases List.mem_map.1 h with ⟨y, _, rfl⟩
  exact codeChar_ne_hyphen y

theorem formatCode_length (cs : List Char) (h : cs.length = 16) :
    (formatCode cs).length = 19 := by
  show (cs.take 4 ++ '-' :: ((cs.drop 4).take 4 ++ '-' ::
    ((cs.drop 8).take 4 ++ '-' :: (cs.drop 12).take 4))).length = 19
  simp [List.length_append, List.length_take, List.length_drop, h]

theorem invite_from_qr_cons (v : Nat) (rest : List Nat) :
    invite_from_qr (v :: rest) =
      if v ≠ INVITE_VERSION then .error (.decodeError "unsupported version")
      else if rest.length < 32 then .error (.decodeError "truncated payload")
      else
        match decodeRelays (rest.drop 32) with
        | none => .error (.decodeError "malformed relay section")
        | some rs =>
            .ok { version := v
                  relay_addresses := rs
                  group_secret := rest.take 32
                  qr_payload := v :: rest
                  short_code := short_code_of (rest.take 32) rs } := rfl

/-- C1: decoding the QR payload of any invite produced by `create_invite`
on a session with a 32-byte secret and a non-empty relay list yields an
invite with the same `group_secret` and the same `version`. -/
theorem invite_qr_roundtrip (s : SyncClient) (rs : List String) (inv : SyncInvite)
    (hrs : rs ≠ []) (hsec : s.secret.length = 32)
    (h : s.create_invite rs = .ok inv) :
    ∃ inv', invite_from_qr inv.qr_payload = .ok inv' ∧
      inv'.group_secret = inv.group_secret ∧ inv'.version = inv.version := by
  unfold SyncClient.create_invite at h
  rw [if_neg hrs] at h
  cases h
  have htake : (s.secret ++ encodeRelays rs).take 32 = s.secret := List.take_left' hsec
  have hdrop : (s.secret ++ encodeRelays rs).drop 32 = encodeRelays rs := List.drop_left' hsec
  have hlen32 : ¬ ((s.secret ++ encodeRelays rs).length < 32) := by
    rw [List.length_append, hsec]; omega
  refine ⟨{ version := INVITE_VERSION, relay_addresses := rs,
            group_secret := s.secret, qr_payload := encodeInvite s.secret rs,
            short_code := short_code_of s.secret rs }, ?_, rfl, rfl⟩
  show invite_from_qr (INVITE_VERSION :: (s.secret ++ encodeRelays rs)) = _
  rw [invite_from_qr_cons, if_neg (by simp), if_neg hlen32]
  simp only [hdrop, decodeRelays_encodeRelays, htake]
  rfl

/-- Witness sessions and invites at concrete inputs. -/
def exampleSecret : List Nat := List.replicate 32 0

/-- A concrete never-connected session holding `exampleSecret`. -/
def exampleClient : SyncClient :=
  { secret := exampleSecret, relay_addresses := ["relay-a"],
    state := .created, cursor := 0 }

/-- The invite `exampleClient.create_invite ["relay-a"]` produces. -/
def exampleInvite : SyncInvite :=
  { version := INVITE_VERSION
    relay_addresses := ["relay-a"]
    group_secret := exampleSecret
    qr_payload := encodeInvite exampleSecret ["relay-a"]
    short_code := short_code_of exampleSecret ["relay-a"] }

/-- Witness for C1 at a concrete session and relay list. -/
theorem invite_qr_roundtrip_at_example :
    ∃ inv', invite_from_qr exampleInvite.qr_payload = .ok inv' ∧
      inv'.group_secret = exampleInvite.group_secret ∧
      inv'.version = exampleInvite.version :=
  invite_qr_roundtrip exampleClient ["relay-a"] exampleInvite
    (by decide) (by decide) rfl

/-- C8: every invite produced by `create_invite` on a session with a
32-byte secret and a non-empty relay list has `version = 3`, a 32-byte
`group_secret`, a non-empty relay list, a non-empty `qr_payload`, and a
19-character `short_code` made of four hyphen-separated hyphen-free
groups of four characters; and `create_invite` on an empty relay list
always fails. -/
theorem create_invite_contract (s : SyncClient) (rs : List String) (inv : SyncInvite)
    (hsec : s.secret.length = 32) (hrs : rs ≠ [])
    (h : s.create_invite rs = .ok inv) :
    inv.version = 3 ∧
    inv.group_secret.length = 32 ∧
    inv.relay_addresses ≠ [] ∧
    inv.qr_payload ≠ [] ∧
    inv.short_code.length = 19 ∧
    (∃ g1 g2 g3 g4 : List Char,
      g1.length = 4 ∧ g2.length = 4 ∧ g3.length = 4 ∧ g4.length = 4 ∧
      (∀ c ∈ g1, c ≠ '-') ∧ (∀ c ∈ g2, c ≠ '-') ∧
      (∀ c ∈ g3, c ≠ '-') ∧ (∀ c ∈ g4, c ≠ '-') ∧
      inv.short_code = String.mk (g1 ++ '-' :: (g2 ++ '-' :: (g3 ++ '-' :: g4)))) ∧
    (∀ s' : SyncClient, SyncClient.create_invite s' [] =
      .error (.configError "relay_addresses must not be empty")) := by
  unfold SyncClient.create_invite at h
  rw [if_neg hrs] at h
  cases h
  have hcs : ((squeeze (mixBytes 7 (encodeInvite s.secret rs)) 16).map codeChar).length = 16 := by
    rw [List.length_map, squeeze_length]
  refine ⟨rfl, hsec, hrs, by simp [encodeInvite], formatCode_length _ hcs, ?_, fun _ => rfl⟩
  set cs := (squeeze (mixBytes 7 (encodeInvite s.secret rs)) 16).map codeChar with hcs_def
  refine ⟨cs.take 4, (cs.drop 4).take 4, (cs.drop 8).take 4, cs.drop 12,
    ?_, ?_, ?_, ?_, ?_, ?_, ?_, ?_, rfl⟩
  · simp [List.length_take, hcs]
  · simp [List.length_take, List.length_drop, hcs]
  · simp [List.length_take, List.length_drop, hcs]
  · simp [List.length_drop, hcs]
  · intro c hc
    exact mem_code_stream_ne_hyphen _ _ _ (List.mem_of_mem_take hc)
  · intro c hc
    exact mem_code_stream_ne_hyphen _ _ _ (List.mem_of_mem_drop (List.mem_of_mem_take hc))
  · intro c hc
    exact mem_code_stream_ne_hyphen _ _ _ (List.mem_of_mem_drop (List.mem_of_mem_take hc))
  · intro c hc
    exact mem_code_stream_ne_hyphen _ _ _ (List.mem_of_mem_drop hc)

/-- Witness for C8 at a concrete session and relay list. -/
theorem create_invite_contract_at_example :
    exampleInvite.version = 3 ∧
    exampleInvite.group_secret.length = 32 ∧
    exampleInvite.relay_addresses ≠ [] ∧
    exampleInvite.qr_payload ≠ [] ∧
    exampleInvite.short_code.length = 19 ∧
    (∃ g1 g2 g3 g4 : List Char,
      g1.length = 4 ∧ g2.length = 4 ∧ g3.length = 4 ∧ g4.length = 4 ∧
      (∀ c ∈ g1, c ≠ '-') ∧ (∀ c ∈ g2, c ≠ '-') ∧
      (∀ c ∈ g3, c ≠ '-') ∧ (∀ c ∈ g4, c ≠ '-') ∧
      exampleInvite.short_code = String.mk (g1 ++ '-' :: (g2 ++ '-' :: (g3 ++ '-' :: g4)))) ∧
    (∀ s' : SyncClient, SyncClient.create_invite s' [] =
      .error (.configError "relay_addresses must not be empty")) :=
  create_invite_contract exampleClient ["relay-a"] exampleInvite
    (by decide) (by decide) rfl
